import Mathlib

/-!
Verification of the vulcan DMX state-synchronization core.

Shallow embedding of the vulcan lighting controller's core
(src/definitions/dmx.rs, src/system_interface/backup_handler.rs,
src/system_interface/mod.rs) together with proofs about its
documented behaviour.

Modelling conventions:
* `u8` values are `Fin 256`; the `u32` channel number is a `Nat`
  (channels are only compared and decremented after a `≥ 1` guard, so
  no wrap-around arithmetic occurs in the embedded code paths).
* A Rust panic (out-of-bounds `Vec` index) is modelled by `Option`:
  `none` is a panic, `some` the normal return.
* The Redis store is an association list from keys to serialized
  documents.  A serialized document (`Doc`) is either a well-formed
  universe document carrying its byte list — serde's derived
  deserializer for `struct Universe { values: Vec<u8> }` accepts any
  sequence length — or a malformed blob that fails to parse.
* Fallible external calls (serde_yaml::to_string, redis SET/GET/DEL,
  opening the client and connection) take a Boolean outcome parameter
  chosen by the environment.
* The output driver (`dmx_interface.rs` is declared by
  `mod dmx_interface;` but its file is not part of the sources given)
  is modelled from the spec, see `DriverEnv` below.
-/

namespace Vulcan

/-- The highest DMX channel (src/definitions/dmx.rs, `DMX_MAX`). -/
def DMX_MAX : Nat := 512

/-- A single fade of a dmx channel (src/definitions/dmx.rs, `Fade`).
The duration is irrelevant to the verified properties; it is kept as an
abstract optional number of nanoseconds. -/
structure Fade where
  channel : Nat
  value : Fin 256
  duration : Option Nat
deriving DecidableEq, Repr

/-- One set of Dmx channels (src/definitions/dmx.rs, `Universe`).
The channels are internally zero-indexed. -/
structure Universe where
  values : List (Fin 256)
deriving DecidableEq, Repr

namespace Universe

/-- Embeds `Universe::new`: a vector of `DMX_MAX` zeroes. -/
def new : Universe :=
  { values := List.replicate DMX_MAX 0 }

/-- Embeds `Universe::get`.  Out-of-bounds channels default to zero; an
in-bounds channel indexes the vector at `channel - 1`, which panics
(`none`) when the vector is shorter than the channel number. -/
def get (u : Universe) (channel : Nat) : Option (Fin 256) :=
  if DMX_MAX < channel ∨ channel < 1 then
    some 0
  else
    u.values[channel - 1]?

/-- Embeds `Universe::set`.  In-bounds channels overwrite index `channel - 1`
in the vector, panicking (`none`) when the vector is too short;
out-of-bounds channels leave the universe unchanged. -/
def set (u : Universe) (channel : Nat) (value : Fin 256) : Option Universe :=
  if channel ≤ DMX_MAX ∧ 0 < channel then
    if channel - 1 < u.values.length then
      some { values := u.values.set (channel - 1) value }
    else
      none
  else
    some u

/-- Embeds `Universe::as_bytes`: the zero-indexed byte vector. -/
def as_bytes (u : Universe) : List (Fin 256) :=
  u.values

end Universe

/-- A serialized document, as stored in Redis or received as an HTTP
body.  `universeDoc vs` is a well-formed document for a universe whose
`values` field holds `vs` (of any length — the serde derive does not
constrain it); `malformed` is any blob that fails to parse as a
`Universe`. -/
inductive Doc where
  | universeDoc (values : List (Fin 256)) : Doc
  | malformed : Doc
deriving DecidableEq, Repr

/-- Embeds `serde_yaml::to_string` applied to a universe: always produces the
well-formed document of its values. -/
def serde_yaml_to_string (u : Universe) : Doc :=
  Doc.universeDoc u.values

/-- Embeds `serde_yaml::from_str::<Universe>` (and equally the JSON body
deserialization used by the `loadUniverse` route, which relies on the
same serde derive): succeeds exactly on well-formed universe documents
and imposes no length constraint. -/
def serde_yaml_from_str : Doc → Option Universe
  | Doc.universeDoc vs => some { values := vs }
  | Doc.malformed => none

/-- The external Redis store: an association list from keys to
serialized documents. -/
abbrev Store : Type := List (String × Doc)

namespace Store

/-- Redis GET: the current value at a key, when present. -/
def get (s : Store) (k : String) : Option Doc :=
  match s with
  | [] => none
  | (k₂, d) :: rest => if k₂ = k then some d else get rest k

/-- Remove every binding of a key. -/
def del (s : Store) (k : String) : Store :=
  match s with
  | [] => []
  | (k₂, d) :: rest => if k₂ = k then del rest k else (k₂, d) :: del rest k

/-- Redis SET: upsert a key. -/
def set (s : Store) (k : String) (d : Doc) : Store :=
  (k, d) :: del s k

theorem get_set_self (s : Store) (k : String) (d : Doc) :
    (s.set k d).get k = some d := by
  simp [Store.get, Store.set]

theorem get_del_self (s : Store) (k : String) :
    (s.del k).get k = none := by
  induction s with
  | nil => rfl
  | cons p rest ih =>
    by_cases h : p.1 = k
    · simpa [Store.del, h] using ih
    · simpa [Store.del, Store.get, h] using ih

theorem get_del_ne (s : Store) (k k₂ : String) (h : k ≠ k₂) :
    (s.del k).get k₂ = s.get k₂ := by
  induction s with
  | nil => rfl
  | cons p rest ih =>
    by_cases hp : p.1 = k
    · simp [Store.del, Store.get, hp, h, ih]
    · by_cases hq : p.1 = k₂ <;>
        simp [Store.del, Store.get, hp, hq, Ne.symm h, ih]

theorem get_set_isSome (s : Store) (k k₂ : String) (d : Doc)
    (h : (s.get k₂).isSome) : ((s.set k d).get k₂).isSome := by
  by_cases hk : k = k₂
  · subst hk
    simp [get_set_self]
  · simpa [Store.set, Store.get, hk, get_del_ne s k k₂ hk] using h

end Store

/-- The Redis key used for this instance's universe backup:
`format!("vulcan:{}:universe", self.address)`. -/
def backupKey (address : String) : String :=
  "vulcan:" ++ address ++ ":universe"

/-- The backup handler (src/system_interface/backup_handler.rs,
`BackupHandler`): the instance address, whether a Redis connection
exists, and the private shadow copy of the universe. -/
structure BackupHandler where
  address : String
  connection : Bool
  univ : Universe
deriving DecidableEq, Repr

namespace BackupHandler

/-- Embeds `BackupHandler::new`.  `openOk` is the outcome of
`redis::Client::open`, `connOk` of `client.get_connection()`.  With no
server location, or when either step fails, the handler is returned
without a Redis connection.  The `CONFIG SET save` command issued on a
fresh connection only logs its error and does not affect the handler,
so its outcome is not modelled. -/
def new (address : String) (server_location : Option String)
    (openOk connOk : Bool) : BackupHandler :=
  match server_location with
  | some _ =>
    if openOk ∧ connOk then
      { address := address, connection := true, univ := Universe.new }
    else
      { address := address, connection := false, univ := Universe.new }
  | none =>
    { address := address, connection := false, univ := Universe.new }

/-- Embeds `BackupHandler::backup_fade`.  With no connection this is a no-op.
Otherwise the fade is first applied to the shadow univ (`none`
models the panic of `Universe::set` on a too-short vector); then the
shadow is serialized (`serOk` the outcome) and, on success, written to
the store (`setOk` the outcome of the Redis SET).  Serialization and
write failures are logged and swallowed, keeping the mutated shadow. -/
def backup_fade (h : BackupHandler) (fade : Fade) (serOk setOk : Bool)
    (s : Store) : Option (BackupHandler × Store) :=
  if h.connection then
    match h.univ.set fade.channel fade.value with
    | none => none
    | some u₂ =>
      let h₂ := { h with univ := u₂ }
      if serOk then
        if setOk then
          some (h₂, s.set (backupKey h.address) (serde_yaml_to_string u₂))
        else
          some (h₂, s)
      else
        some (h₂, s)
  else
    some (h, s)

/-- Embeds `BackupHandler::backup_universe`.  With no connection this is a
no-op.  Otherwise the shadow copy is replaced wholesale, serialized
(`serOk`) and, on success, written to the store (`setOk`); failures
are logged and swallowed. -/
def backup_universe (h : BackupHandler) (univ : Universe)
    (serOk setOk : Bool) (s : Store) : BackupHandler × Store :=
  if h.connection then
    let h₂ := { h with univ := univ }
    if serOk then
      if setOk then
        (h₂, s.set (backupKey h.address) (serde_yaml_to_string univ))
      else
        (h₂, s)
    else
      (h₂, s)
  else
    (h, s)

/-- Embeds `BackupHandler::reload_backup`.  `getOk` is the outcome of the
Redis GET round-trip (a network failure and an absent key reach the
same error branch).  When a stored string is received it is parsed; on
parse failure a fresh `Universe::new()` is substituted.  The result
becomes the new shadow copy and is returned.  The store itself is
never written. -/
def reload_backup (h : BackupHandler) (getOk : Bool) (s : Store) :
    Option Universe × BackupHandler :=
  if h.connection then
    match (if getOk then s.get (backupKey h.address) else none) with
    | some d =>
      let univ :=
        match serde_yaml_from_str d with
        | some u₂ => u₂
        | none => Universe.new
      (some univ, { h with univ := univ })
    | none => (none, h)
  else
    (none, h)

/-- Embeds `impl Drop for BackupHandler`.  The connection is taken (so the
handler left behind has none) and the instance's key is deleted from
the store, best-effort: `delOk` is the outcome of the Redis DEL, whose
error is ignored.  Without a connection nothing happens. -/
def tearDown (h : BackupHandler) (delOk : Bool) (s : Store) :
    BackupHandler × Store :=
  if h.connection then
    ({ h with connection := false },
      if delOk then s.del (backupKey h.address) else s)
  else
    (h, s)

end BackupHandler

/-- A request carried from the web interface to the system interface
(the `Request` variants matched by `SystemInterface::run_once` in
src/system_interface/mod.rs and produced by the routes in
src/web_interface/mod.rs; note that src/definitions/communication.rs
ships an older variant list `PlayFade`/`Restore`/`Quit`, but the
dispatch loop and the web routes agree on the variants below). -/
inductive Request where
  | playFade (fade : Fade) : Request
  | loadUniverse (univ : Universe) : Request
  | close : Request
deriving DecidableEq, Repr

/-- A web reply (src/definitions/communication.rs, `WebReply`). -/
inductive WebReply where
  | generic (is_valid : Bool) (message : String) : WebReply
deriving DecidableEq, Repr

/-- Embeds `WebReply::success()`. -/
def WebReply.success : WebReply :=
  WebReply.generic true ("Request completed.")

/-- Embeds `WebReply::failure(reason)`. -/
def WebReply.failure (reason : String) : WebReply :=
  WebReply.generic false reason

/-- Embeds `WebReply::is_success`. -/
def WebReply.is_success : WebReply → Bool
  | WebReply.generic is_valid _ => is_valid

/-- An operation issued to the output driver.  Modelled from the spec:
the Output Driver collaborator (src/system_interface/dmx_interface.rs
is declared but missing from the sources) exposes exactly "apply a
channel fade" (`DmxInterface::play_fade`) and "replace the entire
channel set" (`DmxInterface::set_universe`). -/
inductive DriverOp where
  | applyFade (fade : Fade) : DriverOp
  | replaceState (univ : Universe) : DriverOp
deriving DecidableEq, Repr

/-- Modelled from the spec: the outcome the Output Driver
(src/system_interface/dmx_interface.rs, missing from the sources)
produces for a `play_fade` call — `apply_fade(fade) -> result<(),
error>`: `none` is success, `some e` a rejection with description `e`
(the dispatch loop renders the error with `format!("{}", error)`).
`replace_state` (`set_universe`) is non-failing at this layer. -/
structure DriverEnv where
  playFadeError : Option String
deriving DecidableEq, Repr

/-- The environment outcomes for processing one request: the driver
outcome plus the serialization and Redis SET outcomes used by the
backup call the request may trigger. -/
structure RunEnv where
  driver : DriverEnv
  serOk : Bool
  setOk : Bool
deriving DecidableEq, Repr

/-- The observable outcome of one `run_once` iteration: whether the
loop continues, the replies sent on the request's reply channel, the
operations issued to the output driver, and the resulting backup
handler and store. -/
structure StepResult where
  keepRunning : Bool
  replies : List WebReply
  driverOps : List DriverOp
  backup : BackupHandler
  store : Store
deriving DecidableEq, Repr

/-- Embeds `SystemInterface::run_once` (src/system_interface/mod.rs), for one
dequeued request.  `PlayFade`: the fade goes to the driver; a driver
error is sent back as a failure reply and the backup is *not* touched;
on driver success the fade is backed up and a success reply is sent.
`LoadUniverse`: the universe goes to the driver, is backed up, and a
success reply is sent.  `Close`: the function returns `false` without
sending any reply.  `none` models a panic inside the iteration. -/
def run_once (req : Request) (env : RunEnv) (h : BackupHandler)
    (s : Store) : Option StepResult :=
  match req with
  | Request.playFade fade =>
    match env.driver.playFadeError with
    | some error =>
      some ⟨true, [WebReply.failure error], [DriverOp.applyFade fade], h, s⟩
    | none =>
      match h.backup_fade fade env.serOk env.setOk s with
      | none => none
      | some (h₂, s₂) =>
        some ⟨true, [WebReply.success], [DriverOp.applyFade fade], h₂, s₂⟩
  | Request.loadUniverse univ =>
    let (h₂, s₂) := h.backup_universe univ env.serOk env.setOk s
    some ⟨true, [WebReply.success], [DriverOp.replaceState univ], h₂, s₂⟩
  | Request.close =>
    some ⟨false, [], [], h, s⟩

/-- Embeds `SystemInterface::new` (src/system_interface/mod.rs): construct
the backup handler, then reload any existing backup and, if one is
found, push it to the dmx hardware — all before the returned interface
has dequeued a single request.  The result records the driver
operations issued during construction together with the handler and
store left for `run`. -/
def systemInterfaceNew (address : String) (server_location : Option String)
    (openOk connOk getOk : Bool) (s : Store) :
    List DriverOp × BackupHandler × Store :=
  let h := BackupHandler.new address server_location openOk connOk
  match h.reload_backup getOk s with
  | (some univ, h₂) => ([DriverOp.replaceState univ], h₂, s)
  | (none, h₂) => ([], h₂, s)

/-- Embeds `SystemInterface::run` (src/system_interface/mod.rs) on a queue of
requests, each paired with its environment outcomes: iterate
`run_once` until it returns `false`, collecting driver operations and
the reply list of every processed request.  `none` models a panic. -/
def runQueue (reqs : List (Request × RunEnv)) (h : BackupHandler)
    (s : Store) :
    Option (List DriverOp × List (List WebReply) × BackupHandler × Store) :=
  match reqs with
  | [] => some ([], [], h, s)
  | (req, env) :: rest =>
    match run_once req env h s with
    | none => none
    | some r =>
      if r.keepRunning then
        match runQueue rest r.backup r.store with
        | none => none
        | some (ops, reps, h₂, s₂) =>
          some (r.driverOps ++ ops, r.replies :: reps, h₂, s₂)
      else
        some (r.driverOps, [r.replies], r.backup, r.store)

/-- The whole system as launched by `Vulcan::run` (src/main.rs):
`SystemInterface::new` followed by `SystemInterface::run` on the
queued requests.  The first component is the complete sequence of
operations the output driver observes. -/
def systemTrace (address : String) (server_location : Option String)
    (openOk connOk getOk : Bool) (s : Store)
    (reqs : List (Request × RunEnv)) :
    Option (List DriverOp × List (List WebReply) × BackupHandler × Store) :=
  let (bootOps, h, s₂) :=
    systemInterfaceNew address server_location openOk connOk getOk s
  match runQueue reqs h s₂ with
  | none => none
  | some (ops, reps, h₂, s₃) => some (bootOps ++ ops, reps, h₂, s₃)

/-! ## Helper lemmas about `Universe.set` and `Universe.get` -/

namespace Universe

theorem set_isSome (u : Universe) (c : Nat) (v : Fin 256)
    (hlen : u.values.length = 512) :
    ∃ u₂ : Universe, u.set c v = some u₂ ∧ u₂.values.length = 512 := by
  unfold Universe.set
  by_cases hin : c ≤ DMX_MAX ∧ 0 < c
  · have hc : c - 1 < u.values.length := by
      simp only [DMX_MAX] at hin
      omega
    exact ⟨_, by rw [if_pos hin, if_pos hc], by simp [hlen]⟩
  · exact ⟨u, by rw [if_neg hin], hlen⟩

theorem get_set_same (u u₂ : Universe) (c : Nat) (v : Fin 256)
    (h1 : 1 ≤ c) (h2 : c ≤ 512) (hset : u.set c v = some u₂) :
    u₂.get c = some v := by
  unfold Universe.set at hset
  have hin : c ≤ DMX_MAX ∧ 0 < c := by simp only [DMX_MAX]; omega
  rw [if_pos hin] at hset
  split at hset
  · cases hset
    unfold Universe.get
    have hbound : ¬(DMX_MAX < c ∨ c < 1) := by simp only [DMX_MAX]; omega
    rw [if_neg hbound]
    exact List.getElem?_set_eq_of_lt v (by assumption)
  · cases hset

theorem get_set_ne (u u₂ : Universe) (c c₂ : Nat) (v : Fin 256)
    (hset : u.set c v = some u₂) (hne : c₂ ≠ c) :
    u₂.get c₂ = u.get c₂ := by
  unfold Universe.set at hset
  split at hset
  · next hin =>
    split at hset
    · cases hset
      unfold Universe.get
      by_cases hbound : DMX_MAX < c₂ ∨ c₂ < 1
      · rw [if_pos hbound, if_pos hbound]
      · rw [if_neg hbound, if_neg hbound]
        simp only
        apply List.getElem?_set_ne
        simp only [DMX_MAX] at hin hbound
        omega
    · cases hset
  · cases hset
    rfl

end Universe

/-! ## Claims -/

/-- Claim C5: for every channel `c` outside 1..512 (`c = 0` or
`c > 512`, within the `u32` range) and every value `v`, on a universe
created by `new()`: `get c` returns 0 and `set c v` leaves the
universe unchanged, and neither operation panics; for `c` inside
1..512 both operations access the stored entry at offset `c - 1`. -/
theorem claim_c5 (c : Nat) (v : Fin 256) (hc : c < 2 ^ 32) :
    ((c = 0 ∨ 512 < c) →
      Universe.new.get c = some 0 ∧ Universe.new.set c v = some Universe.new)
    ∧ (1 ≤ c → c ≤ 512 →
      Universe.new.get c = Universe.new.values[c - 1]?
      ∧ (Universe.new.get c).isSome
      ∧ Universe.new.set c v
          = some { values := Universe.new.values.set (c - 1) v }) := by
  constructor
  · rintro (rfl | hgt)
    · constructor
      · simp [Universe.get, DMX_MAX]
      · simp [Universe.set, DMX_MAX]
    · constructor
      · simp [Universe.get, DMX_MAX, hgt]
      · have : ¬(c ≤ 512 ∧ 0 < c) := by omega
        simp [Universe.set, DMX_MAX, this]
  · intro h1 h2
    have hbound : ¬(DMX_MAX < c ∨ c < 1) := by simp only [DMX_MAX]; omega
    have hlen : c - 1 < Universe.new.values.length := by
      simp only [Universe.new, List.length_replicate, DMX_MAX]
      omega
    have hget : Universe.new.get c = Universe.new.values[c - 1]? := by
      unfold Universe.get
      exact if_neg hbound
    refine ⟨hget, ?_, ?_⟩
    · rw [hget, List.getElem?_eq_getElem hlen]
      rfl
    · have hin : c ≤ DMX_MAX ∧ 0 < c := by simp only [DMX_MAX]; omega
      unfold Universe.set
      rw [if_pos hin, if_pos hlen]

/-- Witness for C5 at the concrete channels 600 (out of range) and 5
(in range), value 7. -/
theorem claim_c5_witness :
    (600 < 2 ^ 32
      ∧ (((600 = 0 ∨ 512 < 600) →
          Universe.new.get 600 = some 0
          ∧ Universe.new.set 600 7 = some Universe.new)
        ∧ (1 ≤ 600 → 600 ≤ 512 →
          Universe.new.get 600 = Universe.new.values[600 - 1]?
          ∧ (Universe.new.get 600).isSome
          ∧ Universe.new.set 600 7
              = some { values := Universe.new.values.set (600 - 1) 7 })))
    ∧ (5 < 2 ^ 32
      ∧ (((5 = 0 ∨ 512 < 5) →
          Universe.new.get 5 = some 0
          ∧ Universe.new.set 5 7 = some Universe.new)
        ∧ (1 ≤ 5 → 5 ≤ 512 →
          Universe.new.get 5 = Universe.new.values[5 - 1]?
          ∧ (Universe.new.get 5).isSome
          ∧ Universe.new.set 5 7
              = some { values := Universe.new.values.set (5 - 1) 7 }))) :=
  ⟨⟨by decide, claim_c5 600 7 (by decide)⟩,
    ⟨by decide, claim_c5 5 7 (by decide)⟩⟩

/-- Counterexample to claim C4 as stated: a length-3 universe is
reachable through the public interface — a stored snapshot whose
document carries only three values is parsed by `reload_backup` into a
universe of length 3, not 512. -/
theorem claim_c4_counterexample :
    (BackupHandler.reload_backup
        { address := ("a"), connection := true, univ := Universe.new }
        true
        [(backupKey ("a"), Doc.universeDoc [1, 2, 3])]).1
      = some { values := [1, 2, 3] }
    ∧ (Universe.mk [1, 2, 3]).values.length ≠ 512 := by
  constructor
  · rfl
  · decide

/-- Claim C4 (amended): `Universe::new()` creates a 512-entry vector
and `set` never changes the length, but deserialization does not
enforce the invariant: a well-formed document with any number of
values is accepted and yields a universe of exactly that length. -/
theorem claim_c4 :
    Universe.new.values.length = 512
    ∧ (∀ (u : Universe) (c : Nat) (v : Fin 256) (u₂ : Universe),
        u.set c v = some u₂ → u₂.values.length = u.values.length)
    ∧ (∀ vs : List (Fin 256),
        serde_yaml_from_str (Doc.universeDoc vs) = some { values := vs }) := by
  refine ⟨by simp only [Universe.new, List.length_replicate, DMX_MAX], ?_,
    fun vs => rfl⟩
  intro u c v u₂ hset
  unfold Universe.set at hset
  split at hset
  · split at hset
    · cases hset
      simp
    · cases hset
  · cases hset
    rfl

/-- Witness for C4's inner hypothesis (`set` succeeding) at a concrete
input: setting channel 1 of a two-entry universe preserves length. -/
theorem claim_c4_witness :
    (Universe.mk [5, 5]).set 1 9 = some (Universe.mk [9, 5])
    ∧ (Universe.mk [9, 5]).values.length = (Universe.mk [5, 5]).values.length :=
  ⟨by decide, claim_c4.2.1 (Universe.mk [5, 5]) 1 9 (Universe.mk [9, 5]) (by decide)⟩

/-- Counterexample to claim C1 as stated: the `Close` request is
dequeued and stops the loop, but zero replies — in particular no
success reply — are sent on its reply channel. -/
theorem claim_c1_counterexample :
    run_once Request.close
        { driver := { playFadeError := none }, serOk := true, setOk := true }
        { address := ("a"), connection := true, univ := Universe.new }
        []
      = some
          { keepRunning := false, replies := [], driverOps := [],
            backup :=
              { address := ("a"), connection := true, univ := Universe.new },
            store := [] }
    ∧ ([] : List WebReply).length ≠ 1 :=
  ⟨rfl, by decide⟩

/-- Claim C1 (amended): every dequeued `PlayFade` or `LoadUniverse`
command receives exactly one reply regardless of outcome; the
`Close` command receives no reply — its reply channel is simply
dropped, which the caller observes as a failure — and it stops the
loop, after which no further commands are processed. -/
theorem claim_c1 (req : Request) (env : RunEnv) (h : BackupHandler)
    (s : Store) (r : StepResult) (hr : run_once req env h s = some r) :
    r.replies.length = (match req with | Request.close => 0 | _ => 1)
    ∧ (req = Request.close → r.keepRunning = false ∧ r.replies = [])
    ∧ (req ≠ Request.close → r.keepRunning = true)
    ∧ (∀ (env₂ : RunEnv) (rest : List (Request × RunEnv)),
        runQueue ((Request.close, env₂) :: rest) h s = some ([], [[]], h, s)) := by
  refine ⟨?_, ?_, ?_, fun env₂ rest => by simp [runQueue, run_once]⟩
  · cases req with
    | playFade fade =>
      cases henv : env.driver.playFadeError with
      | some e =>
        simp [run_once, henv] at hr
        simp [← hr]
      | none =>
        simp [run_once, henv] at hr
        cases hb : h.backup_fade fade env.serOk env.setOk s with
        | none => simp [hb] at hr
        | some p =>
          cases p with
          | mk h₂ s₂ =>
            simp [hb] at hr
            simp [← hr]
    | loadUniverse univ =>
      simp [run_once] at hr
      simp [← hr]
    | close =>
      simp [run_once] at hr
      simp [← hr]
  · intro hreq
    subst hreq
    simp [run_once] at hr
    simp [← hr]
  · intro hreq
    cases req with
    | playFade fade =>
      cases henv : env.driver.playFadeError with
      | some e =>
        simp [run_once, henv] at hr
        simp [← hr]
      | none =>
        simp [run_once, henv] at hr
        cases hb : h.backup_fade fade env.serOk env.setOk s with
        | none => simp [hb] at hr
        | some p =>
          cases p with
          | mk h₂ s₂ =>
            simp [hb] at hr
            simp [← hr]
    | loadUniverse univ =>
      simp [run_once] at hr
      simp [← hr]
    | close => exact absurd rfl hreq

/-- Witness for C1 (amended) at a concrete `LoadUniverse` request. -/
theorem claim_c1_witness :
    run_once (Request.loadUniverse Universe.new)
        { driver := { playFadeError := none }, serOk := true, setOk := true }
        { address := ("a"), connection := false, univ := Universe.new }
        []
      = some
          { keepRunning := true, replies := [WebReply.success],
            driverOps := [DriverOp.replaceState Universe.new],
            backup :=
              { address := ("a"), connection := false, univ := Universe.new },
            store := [] }
    ∧ ([WebReply.success].length
        = (match Request.loadUniverse Universe.new with
            | Request.close => 0 | _ => 1)
      ∧ (Request.loadUniverse Universe.new = Request.close →
          (true : Bool) = false ∧ [WebReply.success] = [])
      ∧ (Request.loadUniverse Universe.new ≠ Request.close → (true : Bool) = true)
      ∧ (∀ (env₂ : RunEnv) (rest : List (Request × RunEnv)),
          runQueue ((Request.close, env₂) :: rest)
              { address := ("a"), connection := false, univ := Universe.new } []
            = some ([], [[]],
                { address := ("a"), connection := false, univ := Universe.new },
                []))) :=
  ⟨rfl,
    claim_c1 (Request.loadUniverse Universe.new)
      { driver := { playFadeError := none }, serOk := true, setOk := true }
      { address := ("a"), connection := false, univ := Universe.new }
      []
      { keepRunning := true, replies := [WebReply.success],
        driverOps := [DriverOp.replaceState Universe.new],
        backup :=
          { address := ("a"), connection := false, univ := Universe.new },
        store := [] }
      rfl⟩

/-- Claim C2: for every `PlayFade` command, if the driver's
`play_fade` returns an error then the caller receives a failure reply
carrying the driver's error description and `backup_fade` is not
called — the backup handler (shadow copy included) and the store are
unchanged; if `play_fade` succeeds, `backup_fade` is called and the
caller receives a success reply. -/
theorem claim_c2 (f : Fade) (env : RunEnv) (h : BackupHandler) (s : Store) :
    (∀ e : String, env.driver.playFadeError = some e →
      run_once (Request.playFade f) env h s
        = some
            { keepRunning := true, replies := [WebReply.failure e],
              driverOps := [DriverOp.applyFade f], backup := h, store := s })
    ∧ (env.driver.playFadeError = none →
      ∀ r : StepResult, run_once (Request.playFade f) env h s = some r →
        ∃ p : BackupHandler × Store,
          h.backup_fade f env.serOk env.setOk s = some p
          ∧ r =
              { keepRunning := true, replies := [WebReply.success],
                driverOps := [DriverOp.applyFade f],
                backup := p.1, store := p.2 }) := by
  constructor
  · intro e he
    simp [run_once, he]
  · intro hn r hr
    simp [run_once, hn] at hr
    cases hb : h.backup_fade f env.serOk env.setOk s with
    | none => simp [hb] at hr
    | some p =>
      cases p with
      | mk h₂ s₂ =>
        simp [hb] at hr
        exact ⟨(h₂, s₂), rfl, hr.symm⟩

/-- Witness for C2 at concrete inputs: a driver rejection with
description "boom" and a driver success, on a disconnected handler. -/
theorem claim_c2_witness :
    (run_once (Request.playFade { channel := 1, value := 10, duration := none })
        { driver := { playFadeError := some ("boom") }, serOk := true,
          setOk := true }
        { address := ("a"), connection := false, univ := Universe.new }
        []
      = some
          { keepRunning := true, replies := [WebReply.failure ("boom")],
            driverOps :=
              [DriverOp.applyFade
                { channel := 1, value := 10, duration := none }],
            backup :=
              { address := ("a"), connection := false, univ := Universe.new },
            store := [] })
    ∧ ∃ p : BackupHandler × Store,
        BackupHandler.backup_fade
            { address := ("a"), connection := false, univ := Universe.new }
            { channel := 1, value := 10, duration := none } true true []
          = some p
        ∧ ({ keepRunning := true, replies := [WebReply.success],
              driverOps :=
                [DriverOp.applyFade
                  { channel := 1, value := 10, duration := none }],
              backup :=
                { address := ("a"), connection := false, univ := Universe.new },
              store := [] } : StepResult)
          = { keepRunning := true, replies := [WebReply.success],
              driverOps :=
                [DriverOp.applyFade
                  { channel := 1, value := 10, duration := none }],
              backup := p.1, store := p.2 } :=
  ⟨(claim_c2 { channel := 1, value := 10, duration := none }
      { driver := { playFadeError := some ("boom") }, serOk := true,
        setOk := true }
      { address := ("a"), connection := false, univ := Universe.new } []).1
      ("boom") rfl,
    (claim_c2 { channel := 1, value := 10, duration := none }
      { driver := { playFadeError := none }, serOk := true, setOk := true }
      { address := ("a"), connection := false, univ := Universe.new } []).2
      rfl _ rfl⟩

/-- Claim C6: with no store location, or when opening the client or
the connection fails, the synchronizer is constructed without a
connection; a connection-less handler is inert for its whole lifetime:
`backup_fade` and `backup_universe` return without touching anything,
`reload_backup` returns `none`, teardown does nothing, and the reply
to any command is the same as it would be in connected mode. -/
theorem claim_c6 (addr loc : String) (openOk connOk serOk setOk getOk delOk : Bool)
    (f : Fade) (u : Universe) (req : Request) (env : RunEnv)
    (h : BackupHandler) (s : Store) (hconn : h.connection = false) :
    (BackupHandler.new addr none openOk connOk).connection = false
    ∧ (openOk = false ∨ connOk = false →
        (BackupHandler.new addr (some loc) openOk connOk).connection = false)
    ∧ h.backup_fade f serOk setOk s = some (h, s)
    ∧ h.backup_universe u serOk setOk s = (h, s)
    ∧ h.reload_backup getOk s = (none, h)
    ∧ h.tearDown delOk s = (h, s)
    ∧ (∃ r : StepResult,
        run_once req env h s = some r
        ∧ r.backup = h ∧ r.store = s
        ∧ r.replies =
            (match req with
              | Request.playFade _ =>
                (match env.driver.playFadeError with
                  | some e => [WebReply.failure e]
                  | none => [WebReply.success])
              | Request.loadUniverse _ => [WebReply.success]
              | Request.close => [])) := by
  refine ⟨rfl, ?_, ?_, ?_, ?_, ?_, ?_⟩
  · rintro (rfl | rfl) <;> simp [BackupHandler.new]
  · simp [BackupHandler.backup_fade, hconn]
  · simp [BackupHandler.backup_universe, hconn]
  · simp [BackupHandler.reload_backup, hconn]
  · simp [BackupHandler.tearDown, hconn]
  · cases req with
    | playFade fade =>
      cases henv : env.driver.playFadeError with
      | some e =>
        refine
          ⟨{ keepRunning := true, replies := [WebReply.failure e],
              driverOps := [DriverOp.applyFade fade], backup := h, store := s },
            ?_, rfl, rfl, ?_⟩
        · simp [run_once, henv]
        · simp [henv]
      | none =>
        refine
          ⟨{ keepRunning := true, replies := [WebReply.success],
              driverOps := [DriverOp.applyFade fade], backup := h, store := s },
            ?_, rfl, rfl, ?_⟩
        · simp [run_once, henv, BackupHandler.backup_fade, hconn]
        · simp [henv]
    | loadUniverse univ =>
      refine
        ⟨{ keepRunning := true, replies := [WebReply.success],
            driverOps := [DriverOp.replaceState univ], backup := h, store := s },
          ?_, rfl, rfl, rfl⟩
      simp [run_once, BackupHandler.backup_universe, hconn]
    | close =>
      exact
        ⟨{ keepRunning := false, replies := [], driverOps := [], backup := h,
            store := s },
          rfl, rfl, rfl, rfl⟩

/-- Witness for C6 at a concrete disconnected handler and a concrete
`PlayFade` command. -/
theorem claim_c6_witness :
    (BackupHandler.new ("a") none true false).connection = false
    ∧ ((true = false ∨ false = false) →
        (BackupHandler.new ("a") (some ("redis://x")) true false).connection
          = false)
    ∧ BackupHandler.backup_fade
        { address := ("a"), connection := false, univ := Universe.new }
        { channel := 1, value := 10, duration := none } true true []
      = some ({ address := ("a"), connection := false, univ := Universe.new }, [])
    ∧ BackupHandler.backup_universe
        { address := ("a"), connection := false, univ := Universe.new }
        Universe.new true true []
      = ({ address := ("a"), connection := false, univ := Universe.new }, [])
    ∧ BackupHandler.reload_backup
        { address := ("a"), connection := false, univ := Universe.new } true []
      = (none, { address := ("a"), connection := false, univ := Universe.new })
    ∧ BackupHandler.tearDown
        { address := ("a"), connection := false, univ := Universe.new } true []
      = ({ address := ("a"), connection := false, univ := Universe.new }, [])
    ∧ (∃ r : StepResult,
        run_once (Request.playFade { channel := 1, value := 10, duration := none })
            { driver := { playFadeError := none }, serOk := true, setOk := true }
            { address := ("a"), connection := false, univ := Universe.new } []
          = some r
        ∧ r.backup = { address := ("a"), connection := false, univ := Universe.new }
        ∧ r.store = []
        ∧ r.replies =
            (match Request.playFade { channel := 1, value := 10, duration := none } with
              | Request.playFade _ =>
                (match ({ driver := { playFadeError := none },
                            serOk := true,
                            setOk := true } : RunEnv).driver.playFadeError with
                  | some e => [WebReply.failure e]
                  | none => [WebReply.success])
              | Request.loadUniverse _ => [WebReply.success]
              | Request.close => [])) :=
  claim_c6 ("a") ("redis://x") true false true true true true
    { channel := 1, value := 10, duration := none } Universe.new
    (Request.playFade { channel := 1, value := 10, duration := none })
    { driver := { playFadeError := none }, serOk := true, setOk := true }
    { address := ("a"), connection := false, univ := Universe.new } [] rfl

/-- Claim C7: when `reload_backup` finds a stored snapshot that fails
to parse, it substitutes a fresh all-zero universe, which becomes the
new shadow copy and is returned as `some` to the caller. -/
theorem claim_c7 (h : BackupHandler) (s : Store)
    (hconn : h.connection = true)
    (hdoc : s.get (backupKey h.address) = some Doc.malformed) :
    h.reload_backup true s
      = (some Universe.new, { h with univ := Universe.new })
    ∧ ∀ c : Nat, Universe.new.get c = some 0 := by
  constructor
  · simp [BackupHandler.reload_backup, hconn, hdoc, serde_yaml_from_str]
  · intro c
    unfold Universe.get
    by_cases hbound : DMX_MAX < c ∨ c < 1
    · rw [if_pos hbound]
    · rw [if_neg hbound]
      have hc : c - 1 < DMX_MAX := by
        simp only [DMX_MAX] at hbound ⊢
        omega
      simp [Universe.new, List.getElem?_replicate, hc]

/-- Witness for C7 at a concrete connected handler whose store entry
is malformed. -/
theorem claim_c7_witness :
    BackupHandler.reload_backup
        { address := ("a"), connection := true, univ := Universe.new } true
        [(backupKey ("a"), Doc.malformed)]
      = (some Universe.new,
          { address := ("a"), connection := true, univ := Universe.new })
    ∧ ∀ c : Nat, Universe.new.get c = some 0 :=
  claim_c7 { address := ("a"), connection := true, univ := Universe.new }
    [(backupKey ("a"), Doc.malformed)] rfl (by simp [Store.get])

/-- Claim C8: teardown of a connected handler deletes the store entry
for this instance, a second teardown is a no-op, a fresh instance at
the same address then reloads nothing, and neither `backup_fade` nor
`backup_universe` ever removes a store entry (`reload_backup` does not
write the store at all, as its signature shows). -/
theorem claim_c8 (h : BackupHandler) (s : Store) (f : Fade) (u : Universe)
    (serOk setOk getOk openOk connOk : Bool) (loc : String)
    (hconn : h.connection = true) :
    ((h.tearDown true s).2.get (backupKey h.address) = none
      ∧ (h.tearDown true s).1.connection = false
      ∧ (h.tearDown true s).1.tearDown true (h.tearDown true s).2
          = ((h.tearDown true s).1, (h.tearDown true s).2)
      ∧ (BackupHandler.new h.address (some loc) openOk connOk).reload_backup
            getOk (h.tearDown true s).2
          = (none, BackupHandler.new h.address (some loc) openOk connOk))
    ∧ (∀ (k : String) (p : BackupHandler × Store),
        h.backup_fade f serOk setOk s = some p →
        (s.get k).isSome → ((p.2).get k).isSome)
    ∧ (∀ k : String, (s.get k).isSome →
        (((h.backup_universe u serOk setOk s).2).get k).isSome) := by
  have htd : h.tearDown true s
      = ({ h with connection := false }, s.del (backupKey h.address)) := by
    simp [BackupHandler.tearDown, hconn]
  refine ⟨⟨?_, ?_, ?_, ?_⟩, ?_, ?_⟩
  · rw [htd]
    exact Store.get_del_self s (backupKey h.address)
  · rw [htd]
  · rw [htd]
    simp [BackupHandler.tearDown]
  · rw [htd]
    by_cases hoc : openOk = true ∧ connOk = true
    · simp [BackupHandler.new, BackupHandler.reload_backup, hoc,
        Store.get_del_self]
    · simp [BackupHandler.new, BackupHandler.reload_backup, hoc]
  · intro k p hbf hk
    unfold BackupHandler.backup_fade at hbf
    rw [if_pos hconn] at hbf
    cases hset : h.univ.set f.channel f.value with
    | none => rw [hset] at hbf; cases hbf
    | some u₂ =>
      rw [hset] at hbf
      cases hser : serOk <;> cases hst : setOk <;>
        simp only [hser, hst, if_true, if_false, Bool.false_eq_true,
          reduceIte] at hbf <;>
        cases hbf <;>
        first
          | exact hk
          | exact Store.get_set_isSome s _ k _ hk
  · intro k hk
    unfold BackupHandler.backup_universe
    rw [if_pos hconn]
    cases hser : serOk <;> cases hst : setOk <;>
      simp only [if_true, if_false, Bool.false_eq_true, reduceIte] <;>
      first
        | exact hk
        | exact Store.get_set_isSome s _ k _ hk

/-- Witness for C8: a connected handler at address "a" with one store
entry, a fade on channel 1, concrete outcomes all successful. -/
theorem claim_c8_witness :
    ((BackupHandler.tearDown
          { address := ("a"), connection := true, univ := Universe.mk [0] }
          true [(backupKey ("a"), Doc.universeDoc [0])]).2.get (backupKey ("a"))
        = none
      ∧ (BackupHandler.tearDown
          { address := ("a"), connection := true, univ := Universe.mk [0] }
          true [(backupKey ("a"), Doc.universeDoc [0])]).1.connection = false
      ∧ (BackupHandler.tearDown
            { address := ("a"), connection := true, univ := Universe.mk [0] }
            true [(backupKey ("a"), Doc.universeDoc [0])]).1.tearDown true
            (BackupHandler.tearDown
              { address := ("a"), connection := true, univ := Universe.mk [0] }
              true [(backupKey ("a"), Doc.universeDoc [0])]).2
          = ((BackupHandler.tearDown
              { address := ("a"), connection := true, univ := Universe.mk [0] }
              true [(backupKey ("a"), Doc.universeDoc [0])]).1,
            (BackupHandler.tearDown
              { address := ("a"), connection := true, univ := Universe.mk [0] }
              true [(backupKey ("a"), Doc.universeDoc [0])]).2)
      ∧ (BackupHandler.new ("a") (some ("redis://x")) true true).reload_backup
            true
            (BackupHandler.tearDown
              { address := ("a"), connection := true, univ := Universe.mk [0] }
              true [(backupKey ("a"), Doc.universeDoc [0])]).2
          = (none, BackupHandler.new ("a") (some ("redis://x")) true true))
    ∧ ((BackupHandler.backup_fade
          { address := ("a"), connection := true, univ := Universe.mk [0] }
          { channel := 1, value := 9, duration := none } true true
          [(backupKey ("a"), Doc.universeDoc [0])]
        = some
            ({ address := ("a"), connection := true, univ := Universe.mk [9] },
              [(backupKey ("a"), Doc.universeDoc [9])]))
      ∧ (Store.get [(backupKey ("a"), Doc.universeDoc [9])]
          (backupKey ("a"))).isSome)
    ∧ (((BackupHandler.backup_universe
          { address := ("a"), connection := true, univ := Universe.mk [0] }
          (Universe.mk []) true true
          [(backupKey ("a"), Doc.universeDoc [0])]).2.get
            (backupKey ("a"))).isSome) :=
  ⟨(claim_c8 { address := ("a"), connection := true, univ := Universe.mk [0] }
      [(backupKey ("a"), Doc.universeDoc [0])]
      { channel := 1, value := 9, duration := none } (Universe.mk [])
      true true true true true ("redis://x") rfl).1,
    ⟨by rfl,
      (claim_c8 { address := ("a"), connection := true, univ := Universe.mk [0] }
        [(backupKey ("a"), Doc.universeDoc [0])]
        { channel := 1, value := 9, duration := none } (Universe.mk [])
        true true true true true ("redis://x") rfl).2.1 (backupKey ("a"))
        ({ address := ("a"), connection := true, univ := Universe.mk [9] },
          [(backupKey ("a"), Doc.universeDoc [9])])
        (by rfl) (by rfl)⟩,
    (claim_c8 { address := ("a"), connection := true, univ := Universe.mk [0] }
      [(backupKey ("a"), Doc.universeDoc [0])]
      { channel := 1, value := 9, duration := none } (Universe.mk [])
      true true true true true ("redis://x") rfl).2.2 (backupKey ("a"))
      (by rfl)⟩

/-- Claim C9: whenever `reload_backup` run by `SystemInterface::new`
returns a universe, the construction pushes exactly that universe to
the output driver as a full-state replacement, and in the system's
complete driver trace that push precedes every operation caused by a
dequeued command. -/
theorem claim_c9 (addr : String) (loc : Option String)
    (openOk connOk getOk : Bool) (s : Store) (u : Universe)
    (h₂ : BackupHandler)
    (hrel : (BackupHandler.new addr loc openOk connOk).reload_backup getOk s
        = (some u, h₂)) :
    systemInterfaceNew addr loc openOk connOk getOk s
      = ([DriverOp.replaceState u], h₂, s)
    ∧ (∀ (reqs : List (Request × RunEnv)) (ops : List DriverOp)
        (reps : List (List WebReply)) (h₃ : BackupHandler) (s₃ : Store),
        systemTrace addr loc openOk connOk getOk s reqs
          = some (ops, reps, h₃, s₃) →
        ∃ rest : List DriverOp, ops = DriverOp.replaceState u :: rest) := by
  have hboot : systemInterfaceNew addr loc openOk connOk getOk s
      = ([DriverOp.replaceState u], h₂, s) := by
    simp only [systemInterfaceNew]
    rw [hrel]
  refine ⟨hboot, ?_⟩
  intro reqs ops reps h₃ s₃ htr
  unfold systemTrace at htr
  rw [hboot] at htr
  have htr₂ :
      (match runQueue reqs h₂ s with
        | none => none
        | some (ops₂, reps₂, h₄, s₄) =>
          some ([DriverOp.replaceState u] ++ ops₂, reps₂, h₄, s₄))
        = some (ops, reps, h₃, s₃) := htr
  cases hq : runQueue reqs h₂ s with
  | none => rw [hq] at htr₂; cases htr₂
  | some q =>
    obtain ⟨ops₂, reps₂, h₄, s₄⟩ := q
    rw [hq] at htr₂
    simp only [List.singleton_append, Option.some.injEq, Prod.mk.injEq] at htr₂
    exact ⟨ops₂, htr₂.1.symm⟩

/-- Witness for C9: a store holding a one-channel snapshot for address
"a" is reloaded and pushed first, here with an empty request queue. -/
theorem claim_c9_witness :
    (systemInterfaceNew ("a") (some ("redis://x")) true true true
        [(backupKey ("a"), Doc.universeDoc [3])]
      = ([DriverOp.replaceState (Universe.mk [3])],
          { address := ("a"), connection := true, univ := Universe.mk [3] },
          [(backupKey ("a"), Doc.universeDoc [3])]))
    ∧ ∃ rest : List DriverOp,
        [DriverOp.replaceState (Universe.mk [3])]
          = DriverOp.replaceState (Universe.mk [3]) :: rest :=
  ⟨(claim_c9 ("a") (some ("redis://x")) true true true
      [(backupKey ("a"), Doc.universeDoc [3])] (Universe.mk [3])
      { address := ("a"), connection := true, univ := Universe.mk [3] }
      rfl).1,
    (claim_c9 ("a") (some ("redis://x")) true true true
      [(backupKey ("a"), Doc.universeDoc [3])] (Universe.mk [3])
      { address := ("a"), connection := true, univ := Universe.mk [3] }
      rfl).2 [] [DriverOp.replaceState (Universe.mk [3])] []
      { address := ("a"), connection := true, univ := Universe.mk [3] }
      [(backupKey ("a"), Doc.universeDoc [3])] rfl⟩

/-- Counterexample to claim C10 as stated: a reload performed right
after a fade whose store write failed does *not* reflect that fade —
the store still holds the old snapshot (all channels 0), so reload
returns a universe with channel 1 at 0, not at the faded value 9, and
overwrites the shadow with it. -/
theorem claim_c10_counterexample :
    BackupHandler.backup_fade
        { address := ("a"), connection := true, univ := Universe.mk [0] }
        { channel := 1, value := 9, duration := none } true false
        [(backupKey ("a"), Doc.universeDoc [0])]
      = some ({ address := ("a"), connection := true, univ := Universe.mk [9] },
          [(backupKey ("a"), Doc.universeDoc [0])])
    ∧ BackupHandler.reload_backup
        { address := ("a"), connection := true, univ := Universe.mk [9] } true
        [(backupKey ("a"), Doc.universeDoc [0])]
      = (some (Universe.mk [0]),
          { address := ("a"), connection := true, univ := Universe.mk [0] })
    ∧ (Universe.mk [0]).get 1 = some 0
    ∧ some (0 : Fin 256) ≠ some (9 : Fin 256) :=
  ⟨rfl, rfl, rfl, by decide⟩

/-- Claim C10 (amended): with a connection, `backup_fade` applies the
fade to the private shadow universe before attempting serialization
and the store write, and the shadow mutation is kept even when
serialization or the write fails; consequently a later *successful*
`backup_fade` writes a snapshot that still reflects the earlier fade
whose own store write failed (a reload performed before any subsequent
successful write does not reflect it, since reload reads the store and
replaces the shadow). -/
theorem claim_c10 (h : BackupHandler) (s : Store) (f : Fade)
    (serOk setOk : Bool) (hconn : h.connection = true)
    (hlen : h.univ.values.length = 512) :
    ∃ u₂ : Universe,
      h.univ.set f.channel f.value = some u₂
      ∧ h.backup_fade f serOk setOk s
          = some ({ h with univ := u₂ },
              if serOk = true ∧ setOk = true then
                s.set (backupKey h.address) (serde_yaml_to_string u₂)
              else s)
      ∧ (1 ≤ f.channel → f.channel ≤ 512 → u₂.get f.channel = some f.value)
      ∧ (∀ f₂ : Fade, ∃ u₃ : Universe,
          u₂.set f₂.channel f₂.value = some u₃
          ∧ BackupHandler.backup_fade { h with univ := u₂ } f₂ true true s
              = some ({ h with univ := u₃ },
                  s.set (backupKey h.address) (serde_yaml_to_string u₃))
          ∧ (f₂.channel ≠ f.channel → 1 ≤ f.channel → f.channel ≤ 512 →
              u₃.get f.channel = some f.value)) := by
  obtain ⟨u₂, hset, hlen₂⟩ := Universe.set_isSome h.univ f.channel f.value hlen
  refine ⟨u₂, hset, ?_, ?_, ?_⟩
  · unfold BackupHandler.backup_fade
    rw [if_pos hconn, hset]
    cases serOk <;> cases setOk <;> simp
  · intro h1 h2
    exact Universe.get_set_same h.univ u₂ f.channel f.value h1 h2 hset
  · intro f₂
    obtain ⟨u₃, hset₃, _⟩ := Universe.set_isSome u₂ f₂.channel f₂.value hlen₂
    refine ⟨u₃, hset₃, ?_, ?_⟩
    · unfold BackupHandler.backup_fade
      rw [if_pos hconn]
      simp [hset₃]
    · intro hne h1 h2
      rw [Universe.get_set_ne u₂ u₃ f₂.channel f.channel f₂.value hset₃
        (Ne.symm (by simpa using hne))]
      exact Universe.get_set_same h.univ u₂ f.channel f.value h1 h2 hset

/-- Witness for C10 at a connected handler with a full-length shadow,
fade 1→10, serialization succeeding but the store write failing. -/
theorem claim_c10_witness :
    ∃ u₂ : Universe,
      Universe.set
          ({ address := ("a"), connection := true,
              univ := Universe.new } : BackupHandler).univ
          ({ channel := 1, value := 10, duration := none } : Fade).channel
          ({ channel := 1, value := 10, duration := none } : Fade).value
        = some u₂
      ∧ BackupHandler.backup_fade
            { address := ("a"), connection := true, univ := Universe.new }
            { channel := 1, value := 10, duration := none } true false []
          = some
              ({ address := ("a"), connection := true, univ := u₂ },
                if true = true ∧ false = true then
                  Store.set [] (backupKey ("a")) (serde_yaml_to_string u₂)
                else [])
      ∧ (1 ≤ ({ channel := 1, value := 10, duration := none } : Fade).channel →
          ({ channel := 1, value := 10, duration := none } : Fade).channel ≤ 512 →
          u₂.get ({ channel := 1, value := 10, duration := none } : Fade).channel
            = some ({ channel := 1, value := 10, duration := none } : Fade).value)
      ∧ (∀ f₂ : Fade, ∃ u₃ : Universe,
          u₂.set f₂.channel f₂.value = some u₃
          ∧ BackupHandler.backup_fade
                { address := ("a"), connection := true, univ := u₂ } f₂ true true
                []
              = some
                  ({ address := ("a"), connection := true, univ := u₃ },
                    Store.set [] (backupKey ("a")) (serde_yaml_to_string u₃))
          ∧ (f₂.channel ≠ ({ channel := 1, value := 10, duration := none } : Fade).channel →
              1 ≤ ({ channel := 1, value := 10, duration := none } : Fade).channel →
              ({ channel := 1, value := 10, duration := none } : Fade).channel ≤ 512 →
              u₃.get ({ channel := 1, value := 10, duration := none } : Fade).channel
                = some ({ channel := 1, value := 10, duration := none } : Fade).value)) :=
  claim_c10 { address := ("a"), connection := true, univ := Universe.new } []
    { channel := 1, value := 10, duration := none } true false rfl
    (by simp only [Universe.new, List.length_replicate, DMX_MAX])

/-- Claim C3: with a connected store and a 512-entry universe `U0`,
after `backup_universe U0` and then `backup_fade` for channels 2→150,
5→255 and 6→150 (all external calls succeeding, no intervening
teardown), a fresh `reload_backup` returns `some` universe in which
channel 2 reads 150, channel 5 reads 255, channel 6 reads 150, and
every other channel reads its value in `U0`. -/
theorem claim_c3 (h : BackupHandler) (s : Store) (U0 : Universe)
    (hconn : h.connection = true) (hlen : U0.values.length = 512) :
    ∃ (h₂ h₃ h₄ : BackupHandler) (s₂ s₃ s₄ : Store) (u : Universe),
      h.backup_universe U0 true true s
        = ({ h with univ := U0 },
            s.set (backupKey h.address) (serde_yaml_to_string U0))
      ∧ BackupHandler.backup_fade { h with univ := U0 }
            { channel := 2, value := 150, duration := none } true true
            (s.set (backupKey h.address) (serde_yaml_to_string U0))
          = some (h₂, s₂)
      ∧ h₂.backup_fade { channel := 5, value := 255, duration := none } true true
            s₂
          = some (h₃, s₃)
      ∧ h₃.backup_fade { channel := 6, value := 150, duration := none } true true
            s₃
          = some (h₄, s₄)
      ∧ (h₄.reload_backup true s₄).1 = some u
      ∧ u.get 2 = some 150
      ∧ u.get 5 = some 255
      ∧ u.get 6 = some 150
      ∧ (∀ c : Nat, c ≠ 2 → c ≠ 5 → c ≠ 6 → u.get c = U0.get c) := by
  obtain ⟨u₁, hset1, hlen1⟩ := Universe.set_isSome U0 2 150 hlen
  obtain ⟨u₂, hset2, hlen2⟩ := Universe.set_isSome u₁ 5 255 hlen1
  obtain ⟨u₃, hset3, _⟩ := Universe.set_isSome u₂ 6 150 hlen2
  refine
    ⟨{ h with univ := u₁ }, { h with univ := u₂ }, { h with univ := u₃ },
      Store.set (s.set (backupKey h.address) (serde_yaml_to_string U0))
        (backupKey h.address) (serde_yaml_to_string u₁),
      Store.set
        (Store.set (s.set (backupKey h.address) (serde_yaml_to_string U0))
          (backupKey h.address) (serde_yaml_to_string u₁))
        (backupKey h.address) (serde_yaml_to_string u₂),
      Store.set
        (Store.set
          (Store.set (s.set (backupKey h.address) (serde_yaml_to_string U0))
            (backupKey h.address) (serde_yaml_to_string u₁))
          (backupKey h.address) (serde_yaml_to_string u₂))
        (backupKey h.address) (serde_yaml_to_string u₃),
      u₃, ?_, ?_, ?_, ?_, ?_, ?_, ?_, ?_, ?_⟩
  · unfold BackupHandler.backup_universe
    rw [if_pos hconn]
    simp
  · unfold BackupHandler.backup_fade
    rw [if_pos hconn]
    simp [hset1]
  · unfold BackupHandler.backup_fade
    rw [if_pos hconn]
    simp [hset2]
  · unfold BackupHandler.backup_fade
    rw [if_pos hconn]
    simp [hset3]
  · unfold BackupHandler.reload_backup
    rw [if_pos hconn]
    simp only [Store.get_set_self, serde_yaml_to_string, serde_yaml_from_str]
    rfl
  · rw [Universe.get_set_ne u₂ u₃ 6 2 150 hset3 (by omega),
      Universe.get_set_ne u₁ u₂ 5 2 255 hset2 (by omega)]
    exact Universe.get_set_same U0 u₁ 2 150 (by omega) (by omega) hset1
  · rw [Universe.get_set_ne u₂ u₃ 6 5 150 hset3 (by omega)]
    exact Universe.get_set_same u₁ u₂ 5 255 (by omega) (by omega) hset2
  · exact Universe.get_set_same u₂ u₃ 6 150 (by omega) (by omega) hset3
  · intro c hc2 hc5 hc6
    rw [Universe.get_set_ne u₂ u₃ 6 c 150 hset3 hc6,
      Universe.get_set_ne u₁ u₂ 5 c 255 hset2 hc5,
      Universe.get_set_ne U0 u₁ 2 c 150 hset1 hc2]

/-- Witness for C3 at a connected handler with `U0 = Universe.new` and
an empty store. -/
theorem claim_c3_witness :
    ({ address := ("a"), connection := true,
        univ := Universe.new } : BackupHandler).connection = true
    ∧ Universe.new.values.length = 512
    ∧ ∃ (h₂ h₃ h₄ : BackupHandler) (s₂ s₃ s₄ : Store) (u : Universe),
        BackupHandler.backup_universe
            { address := ("a"), connection := true, univ := Universe.new }
            Universe.new true true []
          = ({ address := ("a"), connection := true, univ := Universe.new },
              Store.set [] (backupKey ("a")) (serde_yaml_to_string Universe.new))
        ∧ BackupHandler.backup_fade
              { address := ("a"), connection := true, univ := Universe.new }
              { channel := 2, value := 150, duration := none } true true
              (Store.set [] (backupKey ("a")) (serde_yaml_to_string Universe.new))
            = some (h₂, s₂)
        ∧ h₂.backup_fade { channel := 5, value := 255, duration := none } true
              true s₂
            = some (h₃, s₃)
        ∧ h₃.backup_fade { channel := 6, value := 150, duration := none } true
              true s₃
            = some (h₄, s₄)
        ∧ (h₄.reload_backup true s₄).1 = some u
        ∧ u.get 2 = some 150
        ∧ u.get 5 = some 255
        ∧ u.get 6 = some 150
        ∧ (∀ c : Nat, c ≠ 2 → c ≠ 5 → c ≠ 6 → u.get c = Universe.new.get c) :=
  ⟨rfl, by simp only [Universe.new, List.length_replicate, DMX_MAX],
    claim_c3 { address := ("a"), connection := true, univ := Universe.new } []
      Universe.new rfl
      (by simp only [Universe.new, List.length_replicate, DMX_MAX])⟩

end Vulcan
